import Mathlib

/-!
Shallow embedding of `src/config_proxy.py` (the `config-proxy` library).

JSON values are modelled by the inductive type `Json`; Python truthiness by
`pyTruthy`.  The jsonpath engine and the jsonschema validator are external
collaborators and enter as function parameters (`find`, `validate`), and all
file-system and environment access is gathered in a `World` record so that the
source functions become pure Lean functions of the world they run in.
-/

/-- JSON-compatible values: the shape of the loaded configuration document.
Python `None` and JSON `null` are both `Json.null`; a returned Python list is
`Json.arr`. -/
inductive Json where
  | null : Json
  | bool (b : Bool) : Json
  | num (n : Int) : Json
  | str (s : String) : Json
  | arr (xs : List Json) : Json
  | obj (fields : List (String × Json)) : Json

/-- Python truthiness of a JSON-compatible value (`bool(x)`). -/
def pyTruthy : Json → Bool
  | .null => false
  | .bool b => b
  | .num n => if n = 0 then false else true
  | .str s => if s = "" then false else true
  | .arr [] => false
  | .arr (_ :: _) => true
  | .obj [] => false
  | .obj (_ :: _) => true

/-- Python truthiness of an `Optional[bool]` argument (`None` is falsy). -/
def pyTruthyOB : Option Bool → Bool
  | some b => b
  | none => false

/-- Python truthiness of an `Optional[str]` (`None` and `""` are falsy). -/
def pyTruthyOptStr : Option String → Bool
  | none => false
  | some s => if s = "" then false else true

/-- How a Python f-string renders an `Optional[str]`: `None` prints as
`"None"`, a string prints verbatim. -/
def pyStrOpt : Option String → String
  | none => "None"
  | some s => s

/-- The body of `ConfigProxy.get_value` after `jsonpath(path).find(self.config)`
has produced the ordered list `expr` of matched values:

    if not expr:
        return [] if use_list else None
    if use_list:
        return [e.value for e in expr]
    elif use_list == False:
        return expr[0].value
    if len(expr) == 1:
        return expr[0].value
    else:
        return [e.value for e in expr]
-/
def getValueCore (expr : List Json) (useList : Option Bool) : Json :=
  match expr with
  | [] =>
    match pyTruthyOB useList with
    | true => Json.arr []
    | false => Json.null
  | e :: es =>
    match pyTruthyOB useList with
    | true => Json.arr (e :: es)
    | false =>
      match useList with
      | some false => e
      | _ =>
        match es with
        | [] => e
        | _ :: _ => Json.arr (e :: es)

/-- The resolution policy for an unset `use_list`, exactly as the specification
words it: a path matching exactly one node returns the bare value, and a path
matching zero or multiple nodes returns the sequence of matches, possibly
empty.  Written from the spec's words, to be compared with `getValueCore`. -/
def getValueAmbiguousSpec (expr : List Json) : Json :=
  match expr with
  | [m] => m
  | ms => Json.arr ms

/-- Instance state of a constructed `ConfigProxy`: the attributes set by
`__init__` (`self.config_path`, `self.config`, `self.schema`). -/
structure ConfigProxy where
  config_path : Option String
  config : Json
  schema : Json

/-- `ConfigProxy.get_value(self, path, use_list)`.  The jsonpath engine is the
black-box parameter `find`: `find doc path` is the ordered list of values that
`jsonpath(path).find(doc)` matches. -/
def ConfigProxy.get_value (find : Json → String → List Json) (self : ConfigProxy)
    (path : String) (useList : Option Bool) : Json :=
  getValueCore (find self.config path) useList

/-- A call of `ConfigProxy.get_value` seen as a state transformer on the
instance: the method only reads `self.config`, so the post-call instance is
returned alongside the result. -/
def ConfigProxy.get_value_call (find : Json → String → List Json)
    (self : ConfigProxy) (path : String) (useList : Option Bool) :
    Json × ConfigProxy :=
  (ConfigProxy.get_value find self path useList, self)

/-- The class-level configuration of `ConfigProxy` (attributes a subclass may
override): `env_location`, `config_file_names` and `strict`. -/
structure ProxyCls where
  env_location : String
  config_file_names : List String
  strict : Bool

/-- The class attribute defaults of `ConfigProxy` itself. -/
def defaultProxyCls : ProxyCls :=
  { env_location := "CONFIG_PATH"
    config_file_names := ["config.json"]
    strict := true }

/-- The ambient process state read by the library: `os.getenv`, `os.path.exists`,
reading-and-parsing a JSON file (`none` models a `json` parse failure),
`jsonschema.validate` as a black-box predicate, the working directory `wd`, the
directory `pd` one level above the implementation file, and the co-located
schema path `os.path.join(dirname(__file__), "config.schema.json")`. -/
structure World where
  getenv : String → Option String
  exi : String → Bool
  readJson : String → Option Json
  validate : Json → Json → Bool
  wd : String
  pd : String
  schemaPath : String

/-- `os.path.join` of a directory and a file name. -/
def joinPath (d f : String) : String := d ++ "/" ++ f

/-- The search loop of `get_config_path`: the first path in the list that
exists on disk. -/
def findExisting (exi : String → Bool) : List String → Option String
  | [] => none
  | p :: ps => if exi p then some p else findExisting exi ps

/-- The message of the `FileNotFoundError` raised when discovery exhausts all
candidates (the typo `varibale` is the source's). -/
def notFoundMsg (cls : ProxyCls) : String :=
  "Configuration file was not found in any of the usual locations. " ++
    "Please, use env varibale " ++ cls.env_location ++ " instead."

/-- `ConfigProxy.get_config_path`: the env variable `env_location` wins when its
value is truthy; otherwise every candidate `join(dirname, fname)` for
`dirname in (wd, pd)` and `fname in config_file_names` (in that comprehension
order) is probed, and the first existing one is returned; exhaustion raises
`FileNotFoundError` (modelled as `Except.error` carrying the message). -/
def ConfigProxy.get_config_path (cls : ProxyCls) (w : World) :
    Except String String :=
  let envVal := w.getenv cls.env_location
  if pyTruthyOptStr envVal then .ok (envVal.getD "")
  else
    let paths :=
      (([w.wd, w.pd]).map
        (fun dirname => cls.config_file_names.map (fun fname => joinPath dirname fname))).flatten
    match findExisting w.exi paths with
    | some p => .ok p
    | none => .error (notFoundMsg cls)

/-- Discovery exactly as claim C6 words it: if the discovery environment
variable is set, its value wins outright (even when empty); otherwise the file
name candidates are probed in the working directory and in the
implementation-relative directory, and the first existing candidate is
returned, else discovery fails.  Written from the claim's words, to be compared
with `ConfigProxy.get_config_path`. -/
def get_config_path_claimed (cls : ProxyCls) (w : World) : Except String String :=
  match w.getenv cls.env_location with
  | some v => .ok v
  | none =>
    match findExisting w.exi
        ((([w.wd, w.pd]).map
          (fun dirname => cls.config_file_names.map (fun fname => joinPath dirname fname))).flatten) with
    | some p => .ok p
    | none => .error (notFoundMsg cls)

/-- Discovery as the amended claim words it: an environment variable set to a
non-empty value wins; otherwise the candidates are the configured file names in
the working directory followed by the configured file names in the
implementation-relative directory, and the first existing candidate is
returned; with no existing candidate discovery fails with the not-found
message. -/
def discoveryAmended (cls : ProxyCls) (w : World) : Except String String :=
  let candidates :=
    cls.config_file_names.map (fun fname => joinPath w.wd fname) ++
      cls.config_file_names.map (fun fname => joinPath w.pd fname)
  let fromSearch : Except String String :=
    match candidates.find? w.exi with
    | some p => .ok p
    | none => .error (notFoundMsg cls)
  match w.getenv cls.env_location with
  | some v => if v = "" then fromSearch else .ok v
  | none => fromSearch

/-- The exceptions `__init__` and `get_config` can raise: `FileNotFoundError`,
a JSON decode error naming the offending file, and
`jsonschema.ValidationError`. -/
inductive InitErr where
  | notFound (msg : String)
  | parseError (path : String)
  | schemaViolation

/-- `ConfigProxy.__init__(self, config_path)`.  With no path: in non-strict
mode the instance gets an empty document and empty schema, in strict mode
`FileNotFoundError` is raised.  With a path: the file must exist and parse;
then the co-located schema file, when present, must parse and the document must
validate against it. -/
def ConfigProxy.init (cls : ProxyCls) (w : World) (config_path : Option String) :
    Except InitErr ConfigProxy :=
  match config_path with
  | none =>
    if cls.strict then .error (.notFound "Config file was not found")
    else .ok { config_path := none, config := Json.obj [], schema := Json.obj [] }
  | some p =>
    if w.exi p then
      match w.readJson p with
      | none => .error (.parseError p)
      | some cfg =>
        if w.exi w.schemaPath then
          match w.readJson w.schemaPath with
          | none => .error (.parseError w.schemaPath)
          | some sch =>
            if w.validate cfg sch then
              .ok { config_path := some p, config := cfg, schema := sch }
            else .error .schemaViolation
        else .ok { config_path := some p, config := cfg, schema := Json.obj [] }
    else .error (.notFound ("Configuration file not found in " ++ p))

/-- `ConfigProxy.get_config`, with the class attribute `current_config` made an
explicit argument and result (second component): a cached instance is returned
as is; otherwise discovery runs (a discovery failure is re-raised only in
strict mode, else the path is `None`), the class is constructed, and only a
successful construction is stored in the cache. -/
def ConfigProxy.get_config (cls : ProxyCls) (w : World)
    (cache : Option ConfigProxy) : Except InitErr ConfigProxy × Option ConfigProxy :=
  match cache with
  | some c => (.ok c, some c)
  | none =>
    let tried : Except InitErr (Option String) :=
      match ConfigProxy.get_config_path cls w with
      | .ok p => .ok (some p)
      | .error msg => if cls.strict then .error (.notFound msg) else .ok none
    match tried with
    | .error e => (.error e, none)
    | .ok cp =>
      match ConfigProxy.init cls w cp with
      | .error e => (.error e, none)
      | .ok inst => (.ok inst, some inst)

/-- `ConfigProxy.reload`: clears `current_config` and calls `get_config`. -/
def ConfigProxy.reload (cls : ProxyCls) (w : World)
    (_cache : Option ConfigProxy) : Except InitErr ConfigProxy × Option ConfigProxy :=
  ConfigProxy.get_config cls w none

/-- Instance state of a `ConfigProperty`: the `path` / `env` / `default`
triple bound at declaration time. -/
structure ConfigProperty where
  path : Option String
  env : Option String
  default : Option Json

/-- Outcome of `ConfigProperty.get_value`: a returned value, the `ValueError`
of a forced resolution with no value, or an exception propagated from
`ProxyType.get_config()`. -/
inductive PropResult where
  | ok (v : Json)
  | valueError (msg : String)
  | configError (e : InitErr)

/-- The condition `self.env and (value := os.getenv(self.env, None))`: the
environment value used by the override branch, or `none` when the branch is
not taken (no env name, empty env name, variable unset, or set to `""`). -/
def envLookup (p : ConfigProperty) (getenv : String → Option String) :
    Option String :=
  match p.env with
  | none => none
  | some name =>
    if name = "" then none
    else
      match getenv name with
      | none => none
      | some v => if v = "" then none else some v

/-- The condition `self.path and (value := config.get_value(self.path,
use_list=use_list))`: the queried value when the path is configured and the
query result is truthy, else `none`. -/
def pathLookup (p : ConfigProperty) (find : Json → String → List Json)
    (store : ConfigProxy) (useList : Option Bool) : Option Json :=
  match p.path with
  | none => none
  | some pa =>
    if pa = "" then none
    else
      let v := ConfigProxy.get_value find store pa useList
      if pyTruthy v then some v else none

/-- `ConfigProperty.get_value(self, use_list, forced)`.  The result of
`self.ProxyType.get_config()` enters as the parameter `getCfg` (its exception,
when it raises, propagates). -/
def ConfigProperty.get_value (p : ConfigProperty)
    (getenv : String → Option String) (find : Json → String → List Json)
    (getCfg : Except InitErr ConfigProxy) (useList forced : Option Bool) :
    PropResult :=
  match envLookup p getenv with
  | some v => .ok (.str v)
  | none =>
    match getCfg with
    | .error e => .configError e
    | .ok store =>
      match pathLookup p find store useList with
      | some v => .ok v
      | none =>
        match p.default with
        | some d => .ok d
        | none =>
          match pyTruthyOB forced with
          | true =>
            .valueError ("Property " ++ pyStrOpt p.env ++ " / " ++
              pyStrOpt p.path ++ " has no value")
          | false =>
            .ok (match pyTruthyOB useList with
                 | true => Json.arr []
                 | false => Json.null)

/-- `ConfigProperty.value`. -/
def ConfigProperty.value (p : ConfigProperty) (getenv : String → Option String)
    (find : Json → String → List Json) (getCfg : Except InitErr ConfigProxy) :
    PropResult :=
  p.get_value getenv find getCfg none none

/-- `ConfigProperty.fvalue`. -/
def ConfigProperty.fvalue (p : ConfigProperty) (getenv : String → Option String)
    (find : Json → String → List Json) (getCfg : Except InitErr ConfigProxy) :
    PropResult :=
  p.get_value getenv find getCfg none (some true)

/-- `StringProperty.value`: pins `use_list=False`. -/
def StringProperty.value (p : ConfigProperty) (getenv : String → Option String)
    (find : Json → String → List Json) (getCfg : Except InitErr ConfigProxy) :
    PropResult :=
  p.get_value getenv find getCfg (some false) none

/-- `StringProperty.fvalue`: pins `use_list=False`, `forced=True`. -/
def StringProperty.fvalue (p : ConfigProperty) (getenv : String → Option String)
    (find : Json → String → List Json) (getCfg : Except InitErr ConfigProxy) :
    PropResult :=
  p.get_value getenv find getCfg (some false) (some true)

/-- `IntProperty.value`: pins `use_list=False`. -/
def IntProperty.value (p : ConfigProperty) (getenv : String → Option String)
    (find : Json → String → List Json) (getCfg : Except InitErr ConfigProxy) :
    PropResult :=
  p.get_value getenv find getCfg (some false) none

/-- `IntProperty.fvalue`: pins `use_list=False`, `forced=True`. -/
def IntProperty.fvalue (p : ConfigProperty) (getenv : String → Option String)
    (find : Json → String → List Json) (getCfg : Except InitErr ConfigProxy) :
    PropResult :=
  p.get_value getenv find getCfg (some false) (some true)

/-- `ListOfIntsProperty.value`: pins `use_list=True`. -/
def ListOfIntsProperty.value (p : ConfigProperty)
    (getenv : String → Option String) (find : Json → String → List Json)
    (getCfg : Except InitErr ConfigProxy) : PropResult :=
  p.get_value getenv find getCfg (some true) none

/-- `ListOfStringsProperty.value`: pins `use_list=True`. -/
def ListOfStringsProperty.value (p : ConfigProperty)
    (getenv : String → Option String) (find : Json → String → List Json)
    (getCfg : Except InitErr ConfigProxy) : PropResult :=
  p.get_value getenv find getCfg (some true) none

/-- `ListOfObjectsProperty.value`: pins `use_list=True`. -/
def ListOfObjectsProperty.value (p : ConfigProperty)
    (getenv : String → Option String) (find : Json → String → List Json)
    (getCfg : Except InitErr ConfigProxy) : PropResult :=
  p.get_value getenv find getCfg (some true) none

/-- `ListOfListsProperty.value`: pins `use_list=True`. -/
def ListOfListsProperty.value (p : ConfigProperty)
    (getenv : String → Option String) (find : Json → String → List Json)
    (getCfg : Except InitErr ConfigProxy) : PropResult :=
  p.get_value getenv find getCfg (some true) none

/-- A loaded instance with a small document, used for concrete evaluations. -/
def cpx1 : ConfigProxy :=
  { config_path := some "config.json"
    config := Json.obj [("database", Json.obj [("host", Json.str "x")])]
    schema := Json.obj [] }

/-- A jsonpath evaluation with zero matches. -/
def findNone : Json → String → List Json := fun _ _ => []

/-- A property with a path and a default but no env name. -/
def cp2 : ConfigProperty :=
  { path := some "database.port", env := none, default := some (Json.str "fallback") }

/-- An environment with no variables set. -/
def ge2 : String → Option String := fun _ => none

/-- A jsonpath evaluation matching exactly the value `0`. -/
def find2 : Json → String → List Json := fun _ _ => [Json.num 0]

/-- The store whose document holds `{"database": {"port": 0}}`. -/
def st2 : ConfigProxy :=
  { config_path := some "config.json"
    config := Json.obj [("database", Json.obj [("port", Json.num 0)])]
    schema := Json.obj [] }

/-- A property with a path, an env name and a default. -/
def cp3 : ConfigProperty :=
  { path := some "database.port", env := some "DB_PORT", default := some (Json.num 5432) }

/-- An environment where `DB_PORT` is set to a non-empty string. -/
def ge3 : String → Option String :=
  fun name => if name = "DB_PORT" then some "9999" else none

/-- An environment where every variable is set to the empty string. -/
def ge3empty : String → Option String := fun _ => some ""

/-- A jsonpath evaluation matching exactly the value `1234`. -/
def find3 : Json → String → List Json := fun _ _ => [Json.num 1234]

/-- The store whose document holds `{"database": {"port": 1234}}`. -/
def st3 : ConfigProxy :=
  { config_path := some "config.json"
    config := Json.obj [("database", Json.obj [("port", Json.num 1234)])]
    schema := Json.obj [] }

/-- A property with a path and an env name but no default. -/
def cp5 : ConfigProperty :=
  { path := some "database.host", env := some "DB_HOST", default := none }

/-- An environment with no variables set. -/
def ge5 : String → Option String := fun _ => none

/-- A jsonpath evaluation with zero matches. -/
def find5 : Json → String → List Json := fun _ _ => []

/-- A store with an empty document. -/
def st5 : ConfigProxy :=
  { config_path := some "config.json", config := Json.obj [], schema := Json.obj [] }

/-- A process state where the discovery variable is set to the empty string and
no candidate file exists. -/
def w6 : World :=
  { getenv := fun _ => some ""
    exi := fun _ => false
    readJson := fun _ => none
    validate := fun _ _ => true
    wd := "wd"
    pd := "pd"
    schemaPath := "schema" }

/-- A process state where nothing is set and nothing exists, so discovery (and
hence `get_config` in strict mode) fails. -/
def w10 : World :=
  { getenv := fun _ => none
    exi := fun _ => false
    readJson := fun _ => none
    validate := fun _ _ => false
    wd := "wd"
    pd := "pd"
    schemaPath := "schema" }

/-- A process state in which `get_config` succeeds: the discovery variable
points at a file that exists and parses, the schema exists, parses and
validates. -/
def w8 : World :=
  { getenv := fun _ => some "found.json"
    exi := fun _ => true
    readJson := fun _ => some (Json.obj [("a", Json.num 1)])
    validate := fun _ _ => true
    wd := "wd"
    pd := "pd"
    schemaPath := "schema" }

/-- C1 (counterexample): with `use_list` unset and zero matches,
`ConfigProxy.get_value` returns a null value, not the empty sequence the claim
promises ("returns the full ordered sequence of matched values (possibly
empty)"). -/
theorem C1_ambiguous_zero_counterexample :
    ConfigProxy.get_value findNone cpx1 "database.missing" none = Json.null ∧
    getValueAmbiguousSpec (findNone cpx1.config "database.missing") = Json.arr [] ∧
    Json.null ≠ Json.arr [] :=
  ⟨rfl, rfl, fun h => Json.noConfusion h⟩

/-- C1 (amended): with `use_list` unset, `ConfigProxy.get_value` returns the
single matched value on exactly one match, the full ordered sequence of
matched values on two or more matches, and a null/absent value on zero
matches. -/
theorem C1_ambiguous_mode_amended (find : Json → String → List Json)
    (self : ConfigProxy) (path : String) :
    ConfigProxy.get_value find self path none =
      (match find self.config path with
       | [] => Json.null
       | [m] => m
       | ms => Json.arr ms) := by
  cases h : find self.config path with
  | nil => simp [ConfigProxy.get_value, getValueCore, pyTruthyOB, h]
  | cons e es =>
    cases es with
    | nil => simp [ConfigProxy.get_value, getValueCore, pyTruthyOB, h]
    | cons f fs => simp [ConfigProxy.get_value, getValueCore, pyTruthyOB, h]

/-- C4: for every document and path expression, `ConfigProxy.get_value` with
`use_list` explicitly true returns the ordered sequence of all matched values
(empty on zero matches), and with `use_list` explicitly false returns the
first matched value (null on zero matches), discarding the rest. -/
theorem C4_use_list_explicit (find : Json → String → List Json)
    (self : ConfigProxy) (path : String) :
    ConfigProxy.get_value find self path (some true) =
      Json.arr (find self.config path) ∧
    ConfigProxy.get_value find self path (some false) =
      (match find self.config path with
       | [] => Json.null
       | m :: _ => m) := by
  refine ⟨?_, ?_⟩ <;>
    cases h : find self.config path <;>
      simp [ConfigProxy.get_value, getValueCore, pyTruthyOB, h]

/-- C9: `ConfigProxy.get_value` is a pure function of (document, path,
use_list): a call leaves the instance unchanged, a repeated call on the
unmodified instance returns an identical result, and the result does not
depend on the other instance attributes. -/
theorem C9_get_value_pure (find : Json → String → List Json)
    (cp cpAlt : Option String) (config sch schAlt : Json) (path : String)
    (useList : Option Bool) :
    (ConfigProxy.get_value_call find ⟨cp, config, sch⟩ path useList).2 =
      ⟨cp, config, sch⟩ ∧
    (ConfigProxy.get_value_call find
        ((ConfigProxy.get_value_call find ⟨cp, config, sch⟩ path useList).2)
        path useList).1 =
      (ConfigProxy.get_value_call find ⟨cp, config, sch⟩ path useList).1 ∧
    ConfigProxy.get_value find ⟨cp, config, sch⟩ path useList =
      ConfigProxy.get_value find ⟨cpAlt, config, schAlt⟩ path useList :=
  ⟨rfl, rfl, rfl⟩

/-- C3: if a property has an env name configured and that variable is set to a
non-empty string, `ConfigProperty.get_value` returns that string verbatim,
whatever the store, path, default, `use_list` or `forced` are — also through
the typed variants, uncoerced; and a variable set to the empty string does not
trigger the override branch. -/
theorem C3_env_override :
    (∀ (p : ConfigProperty) (getenv : String → Option String)
        (find : Json → String → List Json) (getCfg : Except InitErr ConfigProxy)
        (useList forced : Option Bool) (name v : String),
      p.env = some name → name ≠ "" → getenv name = some v → v ≠ "" →
        (p.get_value getenv find getCfg useList forced = .ok (.str v) ∧
         IntProperty.value p getenv find getCfg = .ok (.str v) ∧
         ListOfIntsProperty.value p getenv find getCfg = .ok (.str v))) ∧
    (∀ (p : ConfigProperty) (getenv : String → Option String) (name : String),
      p.env = some name → getenv name = some "" → envLookup p getenv = none) := by
  constructor
  · intro p getenv find getCfg useList forced name v hname hne hv hvne
    have henv : envLookup p getenv = some v := by
      simp [envLookup, hname, hne, hv, hvne]
    refine ⟨?_, ?_, ?_⟩ <;>
      simp [ConfigProperty.get_value, IntProperty.value, ListOfIntsProperty.value, henv]
  · intro p getenv name hname hv
    simp [envLookup, hname, hv]

/-- C3 (witness): concrete instantiation — `DB_PORT=9999` overrides both the
document value `1234` and the default `5432`, also through `IntProperty`; and
an environment of empty strings never triggers the override. -/
theorem C3_env_override_witness :
    (cp3.get_value ge3 find3 (.ok st3) none none = .ok (.str "9999") ∧
     IntProperty.value cp3 ge3 find3 (.ok st3) = .ok (.str "9999") ∧
     ListOfIntsProperty.value cp3 ge3 find3 (.ok st3) = .ok (.str "9999")) ∧
    envLookup cp3 ge3empty = none :=
  ⟨C3_env_override.1 cp3 ge3 find3 (.ok st3) none none "DB_PORT" "9999"
      rfl (by decide) rfl (by decide),
   C3_env_override.2 cp3 ge3empty "DB_PORT" rfl rfl⟩

/-- C2 (counterexample): the claim promises that a non-null falsy path value
such as `0` is returned in preference to the default, but the source guards
the path result with Python truthiness, so the default wins instead. -/
theorem C2_falsy_value_counterexample :
    cp2.get_value ge2 find2 (.ok st2) (some false) none = .ok (Json.str "fallback") ∧
    cp2.get_value ge2 find2 (.ok st2) (some false) none ≠ .ok (Json.num 0) := by
  constructor
  · rfl
  · intro h
    have h2 : PropResult.ok (Json.str "fallback") = PropResult.ok (Json.num 0) := h
    injection h2 with h3
    exact Json.noConfusion h3

/-- C2 (amended): with the env override not taken, a configured path and a
configured default, the path value is returned exactly when it is truthy;
a falsy path result (null, false, 0, empty string/sequence/mapping) falls
through to the default. -/
theorem C2_truthy_precedence_amended (p : ConfigProperty)
    (getenv : String → Option String) (find : Json → String → List Json)
    (store : ConfigProxy) (useList forced : Option Bool) (pa : String) (d : Json)
    (henv : envLookup p getenv = none) (hpath : p.path = some pa) (hpa : pa ≠ "")
    (hdef : p.default = some d) :
    p.get_value getenv find (.ok store) useList forced =
      (if pyTruthy (ConfigProxy.get_value find store pa useList) then
        PropResult.ok (ConfigProxy.get_value find store pa useList)
       else PropResult.ok d) := by
  have hp : pathLookup p find store useList =
      (if pyTruthy (ConfigProxy.get_value find store pa useList) then
        some (ConfigProxy.get_value find store pa useList)
       else none) := by
    simp [pathLookup, hpath, hpa]
  by_cases ht : pyTruthy (ConfigProxy.get_value find store pa useList) = true
  · simp [ConfigProperty.get_value, henv, hp, ht]
  · simp [ConfigProperty.get_value, henv, hp, ht, hdef]

/-- C2 (witness): concrete instantiation of the amended precedence law at the
falsy document value `0` with default `"fallback"`. -/
theorem C2_truthy_precedence_witness :
    cp2.get_value ge2 find2 (.ok st2) (some false) none =
      (if pyTruthy (ConfigProxy.get_value find2 st2 "database.port" (some false)) then
        PropResult.ok (ConfigProxy.get_value find2 st2 "database.port" (some false))
       else PropResult.ok (Json.str "fallback")) :=
  C2_truthy_precedence_amended cp2 ge2 find2 st2 (some false) none
    "database.port" (Json.str "fallback") rfl rfl (by decide) rfl

/-- C5: with the env override not taken, the path lookup producing no (truthy)
value and no default configured, a forced resolution raises `ValueError`
naming both the env variable and the path, and an unforced one returns the
empty sequence when `use_list` is true and a null value otherwise. -/
theorem C5_missing_value (p : ConfigProperty) (getenv : String → Option String)
    (find : Json → String → List Json) (store : ConfigProxy)
    (useList : Option Bool)
    (henv : envLookup p getenv = none)
    (hpath : pathLookup p find store useList = none)
    (hdef : p.default = none) :
    (p.get_value getenv find (.ok store) useList (some true) =
      .valueError ("Property " ++ pyStrOpt p.env ++ " / " ++ pyStrOpt p.path ++
        " has no value")) ∧
    (p.get_value getenv find (.ok store) useList (some false) =
      .ok (match pyTruthyOB useList with
           | true => Json.arr []
           | false => Json.null)) ∧
    (p.get_value getenv find (.ok store) useList none =
      .ok (match pyTruthyOB useList with
           | true => Json.arr []
           | false => Json.null)) := by
  refine ⟨?_, ?_, ?_⟩ <;>
    simp [ConfigProperty.get_value, henv, hpath, hdef, pyTruthyOB]

/-- C5 (witness): concrete instantiation — no env value, no match, no default:
forced resolution raises the `ValueError` naming `DB_HOST` and
`database.host`, unforced resolution with `use_list=True` returns `[]`. -/
theorem C5_missing_value_witness :
    cp5.get_value ge5 find5 (.ok st5) (some true) (some true) =
      .valueError ("Property " ++ pyStrOpt cp5.env ++ " / " ++ pyStrOpt cp5.path ++
        " has no value") ∧
    cp5.get_value ge5 find5 (.ok st5) (some true) (some false) = .ok (Json.arr []) ∧
    cp5.get_value ge5 find5 (.ok st5) (some true) none = .ok (Json.arr []) := by
  have h := C5_missing_value cp5 ge5 find5 st5 (some true) rfl rfl rfl
  exact h

/-- Unrolling the discovery search loop into `List.find?`. -/
theorem findExisting_eq_findq (exi : String → Bool) (l : List String) :
    findExisting exi l = l.find? exi := by
  induction l with
  | nil => rfl
  | cons a as ih =>
    cases h : exi a <;> simp [findExisting, List.find?, h, ih]

/-- C6 (counterexample): the claim says a set discovery variable wins; with
`CONFIG_PATH` set to the empty string and no candidate file existing, the code
ignores the variable and fails with the not-found error instead of returning
the variable's value. -/
theorem C6_env_empty_counterexample :
    ConfigProxy.get_config_path defaultProxyCls w6 =
      .error (notFoundMsg defaultProxyCls) ∧
    get_config_path_claimed defaultProxyCls w6 = .ok "" ∧
    (Except.error (notFoundMsg defaultProxyCls) : Except String String) ≠ .ok "" :=
  ⟨rfl, rfl, fun h => Except.noConfusion h⟩

/-- C6 (amended): discovery uses the variable only when it is set to a
non-empty value; otherwise the configured file names are probed in the working
directory and then in the implementation-relative directory, the first
existing candidate wins, and exhaustion fails with the not-found error. -/
theorem C6_discovery_amended (cls : ProxyCls) (w : World) :
    ConfigProxy.get_config_path cls w = discoveryAmended cls w := by
  have hcand :
      (([w.wd, w.pd]).map
        (fun dirname => cls.config_file_names.map
          (fun fname => joinPath dirname fname))).flatten =
      cls.config_file_names.map (fun fname => joinPath w.wd fname) ++
        cls.config_file_names.map (fun fname => joinPath w.pd fname) := by
    simp
  cases hg : w.getenv cls.env_location with
  | none =>
    cases hfind : (cls.config_file_names.map (fun fname => joinPath w.wd fname) ++
        cls.config_file_names.map (fun fname => joinPath w.pd fname)).find? w.exi with
    | none =>
      simp [ConfigProxy.get_config_path, discoveryAmended, pyTruthyOptStr, hg,
        hcand, findExisting_eq_findq, hfind]
    | some p =>
      simp [ConfigProxy.get_config_path, discoveryAmended, pyTruthyOptStr, hg,
        hcand, findExisting_eq_findq, hfind]
  | some v =>
    by_cases hv : v = ""
    · subst hv
      cases hfind : (cls.config_file_names.map (fun fname => joinPath w.wd fname) ++
          cls.config_file_names.map (fun fname => joinPath w.pd fname)).find? w.exi with
      | none =>
        simp [ConfigProxy.get_config_path, discoveryAmended, pyTruthyOptStr, hg,
          hcand, findExisting_eq_findq, hfind]
      | some p =>
        simp [ConfigProxy.get_config_path, discoveryAmended, pyTruthyOptStr, hg,
          hcand, findExisting_eq_findq, hfind]
    · simp [ConfigProxy.get_config_path, discoveryAmended, pyTruthyOptStr, hg, hv]

/-- C7: constructing with no path fails with the not-found error in strict
mode, and in non-strict mode succeeds with an empty document and no schema. -/
theorem C7_no_path_strictness (el : String) (names : List String) (w : World) :
    ConfigProxy.init { env_location := el, config_file_names := names, strict := true }
        w none =
      .error (.notFound "Config file was not found") ∧
    ConfigProxy.init { env_location := el, config_file_names := names, strict := false }
        w none =
      .ok { config_path := none, config := Json.obj [], schema := Json.obj [] } :=
  ⟨rfl, rfl⟩

/-- C8: a cached instance is returned as is by any later `get_config` call, in
any process state, without re-running discovery or re-reading files; a call
caches exactly the instance it successfully returns; and `reload` discards the
cache and re-runs `get_config` from scratch, so its result is freshly
constructed from the process state at reload time. -/
theorem C8_cache_and_reload :
    (∀ (cls : ProxyCls) (w : World) (inst : ConfigProxy),
      ConfigProxy.get_config cls w (some inst) = (.ok inst, some inst)) ∧
    (∀ (cls : ProxyCls) (w : World) (cache : Option ConfigProxy),
      (ConfigProxy.get_config cls w cache).2 =
        (match (ConfigProxy.get_config cls w cache).1 with
         | .ok inst => some inst
         | .error _ => cache)) ∧
    (∀ (cls : ProxyCls) (w : World) (cache : Option ConfigProxy),
      ConfigProxy.reload cls w cache = ConfigProxy.get_config cls w none) := by
  refine ⟨fun cls w inst => rfl, ?_, fun cls w cache => rfl⟩
  intro cls w cache
  cases cache with
  | some c => rfl
  | none =>
    cases hp : ConfigProxy.get_config_path cls w with
    | ok p =>
      cases hi : ConfigProxy.init cls w (some p) with
      | ok inst => simp [ConfigProxy.get_config, hp, hi]
      | error e => simp [ConfigProxy.get_config, hp, hi]
    | error msg =>
      by_cases hs : cls.strict = true
      · simp [ConfigProxy.get_config, hp, hs]
      · cases hi : ConfigProxy.init cls w none with
        | ok inst => simp [ConfigProxy.get_config, hp, hs, hi]
        | error e => simp [ConfigProxy.get_config, hp, hs, hi]

/-- C10: when `get_config` raises, the cache it leaves behind is still empty —
no partially constructed instance is stored — so a subsequent call runs
discovery and construction again from scratch. -/
theorem C10_failure_keeps_cache (cls : ProxyCls) (w : World) (e : InitErr)
    (cache : Option ConfigProxy)
    (h : ConfigProxy.get_config cls w none = (.error e, cache)) :
    cache = none ∧
    ConfigProxy.get_config cls w cache = ConfigProxy.get_config cls w none := by
  have key : (ConfigProxy.get_config cls w none).2 = none ∨
      ∃ inst, ConfigProxy.get_config cls w none = (.ok inst, some inst) := by
    cases hp : ConfigProxy.get_config_path cls w with
    | ok p =>
      cases hi : ConfigProxy.init cls w (some p) with
      | ok inst => exact Or.inr ⟨inst, by simp [ConfigProxy.get_config, hp, hi]⟩
      | error e2 => exact Or.inl (by simp [ConfigProxy.get_config, hp, hi])
    | error msg =>
      by_cases hs : cls.strict = true
      · exact Or.inl (by simp [ConfigProxy.get_config, hp, hs])
      · cases hi : ConfigProxy.init cls w none with
        | ok inst => exact Or.inr ⟨inst, by simp [ConfigProxy.get_config, hp, hs, hi]⟩
        | error e2 => exact Or.inl (by simp [ConfigProxy.get_config, hp, hs, hi])
  have hc : cache = none := by
    rcases key with hk | ⟨inst, hk⟩
    · rw [h] at hk
      exact hk
    · rw [h] at hk
      exact absurd (congrArg Prod.fst hk) (by simp)
  subst hc
  exact ⟨rfl, rfl⟩

/-- C10 (witness): concrete instantiation — with nothing on disk and strict
mode, `get_config` fails and the cache stays empty, so the next call re-runs
the whole procedure. -/
theorem C10_failure_keeps_cache_witness :
    (ConfigProxy.get_config defaultProxyCls w10 none).2 = none ∧
    ConfigProxy.get_config defaultProxyCls w10
        ((ConfigProxy.get_config defaultProxyCls w10 none).2) =
      ConfigProxy.get_config defaultProxyCls w10 none :=
  C10_failure_keeps_cache defaultProxyCls w10
    (.notFound (notFoundMsg defaultProxyCls))
    ((ConfigProxy.get_config defaultProxyCls w10 none).2) rfl
